import Mathlib

/-!
Shallow embedding of the Session Lifecycle & Terminal Bridge subsystem of
`terminal-on-web` (src/backend/server.js, server2.js, server3.js).

Strings are modelled with Lean `String`/`List Char`; JavaScript's
`String.prototype.trim`, `split(' ')`, `toLowerCase`, `startsWith` and
`includes` are embedded as explicit functions over character lists.
The session registry (`activeSessions`, a JS `Map`) is an association
list keyed by session id; teardown failures of the external container
runtime are modelled by a boolean oracle `fails : String → Bool`
(the JS code catches any error thrown by `container.stop()/remove()`).
-/

/-- JavaScript whitespace characters relevant to `trim()` for the ASCII
inputs this server handles (space, tab, LF, CR, vertical tab, form feed). -/
def jsWhitespace (c : Char) : Bool :=
  c == ' ' || c == '\t' || c == '\n' || c == '\r' || c == '\x0b' || c == '\x0c'

/-- JS `String.prototype.trim()` on a character list: drop whitespace from both ends. -/
def trimChars (l : List Char) : List Char :=
  ((l.dropWhile jsWhitespace).reverse.dropWhile jsWhitespace).reverse

/-- JS `s.split(' ')[0]`: the characters before the first space character.
(JS `split(' ')` separates on the single space character only.) -/
def firstSpaceTok (l : List Char) : List Char :=
  l.takeWhile (fun c => c != ' ')

/-- JS `String.prototype.toLowerCase()` (ASCII). -/
def lowerChars (l : List Char) : List Char :=
  l.map Char.toLower

/-- The deny-list from server3.js:43-68 (`BLOCKED_COMMANDS`). -/
def BLOCKED_COMMANDS : List String :=
  ["shutdown", "reboot", "init", "poweroff",
   "fdisk", "mkfs", "mkswap",
   "mount", "umount",
   "iptables", "ip6tables",
   "kexec", "kernel", "modprobe", "insmod", "rmmod",
   "sysctl",
   "tcpdump", "wireshark", "nmap",
   "docker", "kubectl",
   "dd", "rawread", "rawwrite",
   "chroot",
   "lsmod", "lspci", "lsusb"]

/-- The deny-list as character lists, for comparison against processed tokens. -/
def BLOCKEDL : List (List Char) :=
  BLOCKED_COMMANDS.map String.toList

/-- server3.js:70-74 `isCommandBlocked(command)`:
`const cmd = command.trim().split(' ')[0].toLowerCase();`
`return BLOCKED_COMMANDS.includes(cmd) || BLOCKED_COMMANDS.some(blocked => cmd.startsWith(blocked + ' '));`
(`includes` is membership, embedded as `any` of equality). -/
def isCommandBlocked (command : String) : Bool :=
  let cmd : List Char := lowerChars (firstSpaceTok (trimChars command.toList))
  BLOCKEDL.any (fun blocked => cmd == blocked) ||
    BLOCKEDL.any (fun blocked => List.isPrefixOf (blocked ++ [' ']) cmd)

/-- The first whitespace-delimited token of a line: skip leading whitespace,
then take characters up to the next whitespace.  This is the tokenisation the
claim describes (any whitespace delimits), written from the claim's words. -/
def firstWsTok (l : List Char) : List Char :=
  (l.dropWhile jsWhitespace).takeWhile (fun c => !(jsWhitespace c))

/-- The claim's blocking predicate, written from its words: the line is blocked
iff its first whitespace-delimited token, lowercased, exactly matches a
deny-list entry or starts with a deny-list name followed by a space. -/
def specBlockedClaim (line : String) : Bool :=
  let tok : List Char := lowerChars (firstWsTok line.toList)
  BLOCKEDL.any (fun d => tok == d || List.isPrefixOf (d ++ [' ']) tok)

/-- The amended blocking predicate: as the claim, but the first token is
delimited by the space character only (other whitespace, e.g. a tab, does not
end the token), taken from the trimmed line. -/
def specBlockedAmended (line : String) : Bool :=
  let tok : List Char := lowerChars (firstSpaceTok (trimChars line.toList))
  BLOCKEDL.any (fun d => tok == d || List.isPrefixOf (d ++ [' ']) tok)

theorem any_or_split {α : Type} (l : List α) (p q : α → Bool) :
    l.any (fun x => p x || q x) = (l.any p || l.any q) := by
  induction l with
  | nil => rfl
  | cons a t ih =>
    simp only [List.any_cons, ih]
    cases p a <;> cases q a <;> simp


/-- JS `trim` on `String`. -/
def jsTrimS (s : String) : String :=
  String.mk (trimChars s.toList)

/-- JS `s.split(' ')[0]` on `String`. -/
def firstSpaceTokS (s : String) : String :=
  String.mk (firstSpaceTok s.toList)

/-- The per-connection mutable state read and written by the
`ws.on('message')` handler of server3.js:255-289: the line-inspection buffer
`commandBuffer` and `session.lastCommand`.  (`session.lastActivity`, also
updated there, is modelled with the registry events below.) -/
structure WsState where
  commandBuffer : String
  lastCommand : String
deriving DecidableEq

/-- The observable effect of one `ws.on('message')` callback invocation:
the strings written to the container exec stream (`stream.write`), the
strings sent on the websocket (`ws.send`), and the updated state.  The
handler never calls `ws.send`. -/
structure MsgEffects where
  streamWrites : List String
  wsSends : List String
  newState : WsState
deriving DecidableEq

/-- The warning string of server3.js:262. -/
def blockedWarning : String :=
  "\r\nThis command is blocked for security reasons\r\n"

/-- server3.js:255-289, the `ws.on('message')` handler body for one frame
`data` (already `toString()`ed).  Branches, in source order: frame exactly
`'\r'` or `'\n'`; then (a) nonempty trimmed buffer and `isCommandBlocked` →
write the warning to the exec stream and return (the frame itself is not
written), (b) trimmed buffer `'q'` after a `top` command → write `'\x03'`
and `'\r\n'` to the stream and return, (c) otherwise record the first token
as `lastCommand`, clear the buffer and fall through to `stream.write(data)`;
any other frame is appended to the buffer and forwarded. -/
def handleMessage (st : WsState) (data : String) : MsgEffects :=
  if data == "\r" || data == "\n" then
    if jsTrimS st.commandBuffer != "" && isCommandBlocked (jsTrimS st.commandBuffer) then
      { streamWrites := [blockedWarning], wsSends := [],
        newState := { st with commandBuffer := "" } }
    else if jsTrimS st.commandBuffer == "q" && st.lastCommand == "top" then
      { streamWrites := ["\x03", "\r\n"], wsSends := [],
        newState := { commandBuffer := "", lastCommand := "" } }
    else
      { streamWrites := [data], wsSends := [],
        newState := { commandBuffer := "",
                      lastCommand := if jsTrimS st.commandBuffer != "" then
                                       firstSpaceTokS (jsTrimS st.commandBuffer)
                                     else st.lastCommand } }
  else
    { streamWrites := [data], wsSends := [],
      newState := { st with commandBuffer := st.commandBuffer ++ data } }


/-- One entry of a Docker `Ulimits` array. -/
structure Ulimit where
  uname : String
  soft : Nat
  hard : Nat
deriving DecidableEq

/-- The Docker `HostConfig` object passed to `docker.createContainer`.
server.js has no `Ulimits` key, modelled as `none`. -/
structure HostConfig where
  AutoRemove : Bool
  Memory : Nat
  MemorySwap : Nat
  CpuShares : Nat
  SecurityOpt : List String
  CapDrop : List String
  CapAdd : List String
  NetworkMode : String
  ReadonlyRootfs : Bool
  PidsLimit : Nat
  Ulimits : Option (List Ulimit)
deriving DecidableEq

/-- server3.js:108-133: the `HostConfig` of every container created by the
server3 variant's `POST /api/sessions`. -/
def server3HostConfig : HostConfig :=
  { AutoRemove := true
    Memory := 512 * 1024 * 1024
    MemorySwap := 512 * 1024 * 1024
    CpuShares := 256
    SecurityOpt := ["no-new-privileges:false", "seccomp=unconfined"]
    CapDrop := ["ALL"]
    CapAdd := ["AUDIT_WRITE", "CHOWN", "DAC_OVERRIDE", "SETGID", "SETUID",
               "NET_BIND_SERVICE", "SYS_ADMIN"]
    NetworkMode := "bridge"
    ReadonlyRootfs := false
    PidsLimit := 100
    Ulimits := some [⟨"nofile", 1024, 2048⟩] }

/-- server.js:62-73: the `HostConfig` of every container created by the
server.js variant's `POST /api/sessions`. -/
def serverHostConfig : HostConfig :=
  { AutoRemove := true
    Memory := 1024 * 1024 * 1024
    MemorySwap := 1024 * 1024 * 1024
    CpuShares := 512
    SecurityOpt := ["no-new-privileges"]
    CapDrop := ["ALL"]
    CapAdd := ["NET_ADMIN"]
    NetworkMode := "bridge"
    ReadonlyRootfs := false
    PidsLimit := 100
    Ulimits := none }

/-- A session record in `activeSessions` (server3.js:153-157): last-activity
timestamp, terminal dimensions `(cols, rows)`, and the exec/stream reference
(`none` until a websocket connection opens a process channel and sets
`session.exec`; the `Nat` stands for the channel identity). -/
structure SessionRec where
  lastActivity : Nat
  dimensions : Nat × Nat
  channel : Option Nat
deriving DecidableEq

/-- The `activeSessions` map, as an association list keyed by session id. -/
abbrev Registry := List (String × SessionRec)

/-- JS `activeSessions.get(id)`. -/
def lookupReg (reg : Registry) (id : String) : Option SessionRec :=
  match reg with
  | [] => none
  | (k, v) :: t => if k = id then some v else lookupReg t id

/-- JS `activeSessions.delete(id)`. -/
def eraseReg (reg : Registry) (id : String) : Registry :=
  reg.filter (fun p => !(p.1 == id))

/-- server3.js:76-88 and server.js:28-40 `cleanupSession(sessionId)`:
look the session up; if present, `try { stop(); remove(); } catch { log }
finally { delete }`.  A throwing `container.stop()/remove()` is modelled by
the oracle `fails`; the thrown error is caught and logged (second component),
and the registry entry is deleted in the `finally` block regardless. -/
def cleanupSession (fails : String → Bool) (reg : Registry) (id : String) :
    Registry × List String :=
  match lookupReg reg id with
  | none => (reg, [])
  | some _ =>
      (eraseReg reg id,
       if fails id then ["Error cleaning up session " ++ id] else [])

/-- The idle threshold of server3.js:340 (`30 * 60 * 1000` ms). -/
def idleThresholdMs : Nat := 30 * 60 * 1000

/-- One iteration of the server3.js:337-344 reaper loop body for the entry
`p` of the original map: reap it when `now - lastActivity` exceeds the
threshold. -/
def sweepStep (fails : String → Bool) (now : Nat) (acc : Registry)
    (p : String × SessionRec) : Registry :=
  if now - p.2.lastActivity > idleThresholdMs then (cleanupSession fails acc p.1).1
  else acc

/-- server3.js:337-344: the `setInterval` reaper sweep, iterating over the
entries of `activeSessions` and calling `cleanupSession` on each stale one. -/
def reaperSweep (fails : String → Bool) (now : Nat) (reg : Registry) : Registry :=
  reg.foldl (sweepStep fails now) reg

/-- HTTP responses of the control routes (status code plus the json payload
message string). -/
inductive HttpRes where
  | ok (msg : String)
  | notFound (err : String)
  | serverError (err : String)
deriving DecidableEq

/-- server3.js:193-202 `DELETE /api/sessions/:sessionId`: always calls
`cleanupSession` and responds success (`cleanupSession` catches teardown
errors internally, so the route's catch branch is unreachable). -/
def deleteSession3 (fails : String → Bool) (reg : Registry) (id : String) :
    Registry × HttpRes :=
  ((cleanupSession fails reg id).1, HttpRes.ok "Session terminated successfully")

/-- server.js:208-222 `DELETE /api/sessions/:sessionId`: responds 404 when
the id is not in `activeSessions`, otherwise cleans up and responds success. -/
def deleteSessionV1 (fails : String → Bool) (reg : Registry) (id : String) :
    Registry × HttpRes :=
  if (lookupReg reg id).isSome then
    ((cleanupSession fails reg id).1, HttpRes.ok "Session terminated successfully")
  else
    (reg, HttpRes.notFound "Session not found")

/-- One call to the container runtime's `exec.resize({h: rows, w: cols})`. -/
structure ResizeCall where
  h : Nat
  w : Nat
deriving DecidableEq

/-- JS assignment of cols and rows to `session.dimensions` for the entry `id`. -/
def updateDims (reg : Registry) (id : String) (cols rows : Nat) : Registry :=
  reg.map (fun p => if p.1 = id then (p.1, { p.2 with dimensions := (cols, rows) }) else p)

/-- server3.js:171-191 `POST /api/sessions/:sessionId/resize`: 404 when the
session is unknown; if the session has no exec channel yet (`if (exec)`
false) respond success without touching the runtime; otherwise call
`exec.resize({h: rows, w: cols})` (third component records the calls made),
update `session.dimensions` and respond success — unless the runtime call
threw (`resizeFails`), in which case respond 500 and leave `dimensions`
unchanged. -/
def resizeSession (reg : Registry) (id : String) (cols rows : Nat)
    (resizeFails : Bool) : Registry × HttpRes × List ResizeCall :=
  match lookupReg reg id with
  | none => (reg, HttpRes.notFound "Session not found", [])
  | some s =>
      if s.channel.isSome then
        if resizeFails then
          (reg, HttpRes.serverError "Failed to resize terminal", [⟨rows, cols⟩])
        else
          (updateDims reg id cols rows, HttpRes.ok "Terminal resized", [⟨rows, cols⟩])
      else
        (reg, HttpRes.ok "Terminal resized", [])

/-- The json body of server.js:200-204 `GET /api/sessions/:sessionId`. -/
structure StatusBody where
  sessionId : String
  active : Bool
  lastActivity : Nat
deriving DecidableEq

/-- The keys of the json object built at server.js:200-204. -/
def statusResponseFields : List String :=
  ["sessionId", "active", "lastActivity"]

/-- server.js:192-205 `GET /api/sessions/:sessionId`: 404 when unknown,
otherwise `{sessionId, active: true, lastActivity}`. -/
def getSessionStatus (reg : Registry) (id : String) : HttpRes × Option StatusBody :=
  match lookupReg reg id with
  | none => (HttpRes.notFound "Session not found", none)
  | some s => (HttpRes.ok "", some ⟨id, true, s.lastActivity⟩)

/-- A live terminal bridge: one websocket paired with one exec stream for a
session.  A bridge is live from its `wss.on('connection')` setup until its
own websocket closes (server3.js:326-329, `ws.on('close')` ends that
stream; nothing else ends it). -/
structure Bridge where
  wsId : Nat
  streamId : Nat
  sessionId : String
deriving DecidableEq

/-- The websocket-server state: the session registry, the live bridges, and
a counter supplying fresh exec/stream identities. -/
structure SrvState where
  reg : Registry
  bridges : List Bridge
  nextStream : Nat
deriving DecidableEq

/-- JS assignment of the new exec and stream references to the session entry `id`. -/
def setChannel (reg : Registry) (id : String) (e : Nat) : Registry :=
  reg.map (fun p => if p.1 = id then (p.1, { p.2 with channel := some e }) else p)

/-- server3.js:204-239 `wss.on('connection')`: unknown session → notice and
close, no bridge; otherwise create a fresh exec and stream, overwrite
`session.exec`/`session.stream`, and start a new bridge.  Bridges already
live for the same session are neither rejected nor torn down. -/
def wsConnect (st : SrvState) (wsId : Nat) (sid : String) : SrvState :=
  match lookupReg st.reg sid with
  | none => st
  | some _ =>
      { reg := setChannel st.reg sid st.nextStream
        bridges := st.bridges ++ [⟨wsId, st.nextStream, sid⟩]
        nextStream := st.nextStream + 1 }

/-- server3.js:326-329 `ws.on('close')`: `stream.end()` retires the closing
websocket's own bridge. -/
def wsClose (st : SrvState) (wsId : Nat) : SrvState :=
  { st with bridges := st.bridges.filter (fun b => !(b.wsId == wsId)) }

/-- server3.js:295 `const maxChunkSize = 1024`. -/
def maxChunkSize : Nat := 1024

/-- The server3.js:291-308 `stream.on('data')` chunking loop, with explicit
fuel bounding the iteration count (each iteration consumes `maxChunkSize`
bytes, so `chunk.length` iterations always suffice): a chunk of at most
`maxChunkSize` bytes is sent as one frame, a longer one as
`slice(i, min(i+1024, length))` frames for `i = 0, 1024, 2048, ...`. -/
def chunkFramesFuel : Nat → List Nat → List (List Nat)
  | 0, l => [l]
  | Nat.succ fuel, l =>
      if l.length ≤ maxChunkSize then [l]
      else l.take maxChunkSize :: chunkFramesFuel fuel (l.drop maxChunkSize)

/-- The frames sent for one `stream.on('data')` chunk (server3.js:291-308). -/
def chunkFrames (chunk : List Nat) : List (List Nat) :=
  chunkFramesFuel chunk.length chunk

/-- server.js:106-110: `setTimeout(..., 30 * 60 * 1000)` armed inside
`POST /api/sessions`. -/
def sessionTimeoutMs : Nat := 30 * 60 * 1000

/-- The scheduled firing of the server.js creation timer. -/
structure TimerReq where
  fireAt : Nat
  sessionId : String
deriving DecidableEq

/-- server.js:106-110: at creation time `t`, the timeout is armed to fire at
`t + sessionTimeoutMs` for this session. -/
def armSessionTimer (id : String) (t : Nat) : TimerReq :=
  ⟨t + sessionTimeoutMs, id⟩

/-- Registry-affecting events between creation and the timer firing:
`activity id t` is `session.lastActivity = Date.now()` (server.js:151 /
server3.js:257); `timerFire id` is the server.js:106-110 timer callback
`if (activeSessions.has(sessionId)) await cleanupSession(sessionId)`. -/
inductive SrvEvent where
  | activity (id : String) (t : Nat)
  | timerFire (id : String)
deriving DecidableEq

/-- JS assignment of `t` to the lastActivity of the entry `id`. -/
def touchActivity (reg : Registry) (id : String) (t : Nat) : Registry :=
  reg.map (fun p => if p.1 = id then (p.1, { p.2 with lastActivity := t }) else p)

/-- Apply one event to the registry. -/
def applyEvent (fails : String → Bool) (reg : Registry) (e : SrvEvent) : Registry :=
  match e with
  | SrvEvent.activity id t => touchActivity reg id t
  | SrvEvent.timerFire id =>
      if (lookupReg reg id).isSome then (cleanupSession fails reg id).1 else reg

theorem lookupReg_eq_none_iff (reg : Registry) (id : String) :
    lookupReg reg id = none ↔ ∀ p ∈ reg, p.1 ≠ id := by
  induction reg with
  | nil => simp [lookupReg]
  | cons p t ih =>
    cases p with
    | mk k v =>
      by_cases h : k = id
      · subst h
        simp [lookupReg]
      · simp [lookupReg, h, ih]

theorem lookup_erase (reg : Registry) (id : String) :
    lookupReg (eraseReg reg id) id = none := by
  rw [lookupReg_eq_none_iff]
  intro p hp
  have h := List.mem_filter.mp hp
  simpa using h.2

theorem erase_preserves_none (reg : Registry) (id k : String)
    (h : lookupReg reg id = none) : lookupReg (eraseReg reg k) id = none := by
  rw [lookupReg_eq_none_iff] at h ⊢
  intro p hp
  exact h p (List.mem_filter.mp hp).1

theorem cleanup_lookup_none (fails : String → Bool) (reg : Registry) (id : String) :
    lookupReg (cleanupSession fails reg id).1 id = none := by
  unfold cleanupSession
  cases h : lookupReg reg id with
  | none => simpa using h
  | some s => simpa using lookup_erase reg id

theorem cleanup_preserves_none (fails : String → Bool) (reg : Registry) (id k : String)
    (h : lookupReg reg id = none) : lookupReg (cleanupSession fails reg k).1 id = none := by
  unfold cleanupSession
  cases hk : lookupReg reg k with
  | none => simpa using h
  | some s => simpa using erase_preserves_none reg id k h

theorem cleanup_fst_indep (fails g : String → Bool) (reg : Registry) (id : String) :
    (cleanupSession fails reg id).1 = (cleanupSession g reg id).1 := by
  unfold cleanupSession
  cases lookupReg reg id <;> rfl

theorem sweepStep_preserves_none (fails : String → Bool) (now : Nat) (acc : Registry)
    (p : String × SessionRec) (id : String) (h : lookupReg acc id = none) :
    lookupReg (sweepStep fails now acc p) id = none := by
  unfold sweepStep
  split
  · exact cleanup_preserves_none fails acc id p.1 h
  · exact h

theorem foldl_sweep_preserves_none (fails : String → Bool) (now : Nat) (id : String) :
    ∀ (l : List (String × SessionRec)) (acc : Registry), lookupReg acc id = none →
      lookupReg (l.foldl (sweepStep fails now) acc) id = none := by
  intro l
  induction l with
  | nil => intro acc h; simpa using h
  | cons p t ih =>
    intro acc h
    exact ih _ (sweepStep_preserves_none fails now acc p id h)

theorem sweepStep_kills (fails : String → Bool) (now : Nat) (acc : Registry)
    (id : String) (rec : SessionRec) (hstale : now - rec.lastActivity > idleThresholdMs) :
    lookupReg (sweepStep fails now acc (id, rec)) id = none := by
  unfold sweepStep
  rw [if_pos hstale]
  exact cleanup_lookup_none fails acc id

theorem foldl_sweep_mem_stale (fails : String → Bool) (now : Nat) (id : String)
    (rec : SessionRec) (hstale : now - rec.lastActivity > idleThresholdMs) :
    ∀ (l : List (String × SessionRec)) (acc : Registry), (id, rec) ∈ l →
      lookupReg (l.foldl (sweepStep fails now) acc) id = none := by
  intro l
  induction l with
  | nil => intro acc h; cases h
  | cons p t ih =>
    intro acc hmem
    rcases List.mem_cons.mp hmem with h | h
    · subst h
      exact foldl_sweep_preserves_none fails now id t _
        (sweepStep_kills fails now acc id rec hstale)
    · exact ih _ h

theorem sweepStep_indep (fails g : String → Bool) (now : Nat) (acc : Registry)
    (p : String × SessionRec) :
    sweepStep fails now acc p = sweepStep g now acc p := by
  unfold sweepStep
  split
  · exact cleanup_fst_indep fails g acc p.1
  · rfl

theorem foldl_sweep_indep (fails g : String → Bool) (now : Nat) :
    ∀ (l : List (String × SessionRec)) (acc : Registry),
      l.foldl (sweepStep fails now) acc = l.foldl (sweepStep g now) acc := by
  intro l
  induction l with
  | nil => intro acc; rfl
  | cons p t ih =>
    intro acc
    simp only [List.foldl_cons]
    rw [sweepStep_indep fails g now acc p]
    exact ih _

theorem timerFire_lookup_none (fails : String → Bool) (reg : Registry) (id : String) :
    lookupReg (applyEvent fails reg (SrvEvent.timerFire id)) id = none := by
  unfold applyEvent
  cases h : lookupReg reg id with
  | none => simp [h]
  | some s => simpa [h] using cleanup_lookup_none fails reg id

theorem lookup_updateDims (id : String) (c r : Nat) :
    ∀ reg : Registry, lookupReg (updateDims reg id c r) id =
      (lookupReg reg id).map (fun s => { s with dimensions := (c, r) }) := by
  intro reg
  induction reg with
  | nil => rfl
  | cons p t ih =>
    cases p with
    | mk k v =>
      by_cases h : k = id
      · subst h
        simp only [updateDims, List.map_cons]
        rw [if_pos trivial]
        simp [lookupReg]
      · simp only [updateDims, List.map_cons]
        rw [if_neg h]
        simp only [lookupReg]
        rw [if_neg h, if_neg h]
        exact ih

theorem chunkFramesFuel_spec :
    ∀ (fuel : Nat) (l : List Nat), l.length ≤ fuel + maxChunkSize →
      ((chunkFramesFuel fuel l).all fun f => decide (f.length ≤ maxChunkSize)) = true ∧
      (chunkFramesFuel fuel l).flatten = l ∧
      0 < (chunkFramesFuel fuel l).length := by
  intro fuel
  induction fuel with
  | zero =>
    intro l h
    refine ⟨?_, by simp [chunkFramesFuel], by simp [chunkFramesFuel]⟩
    simp only [chunkFramesFuel, List.all_cons, List.all_nil, Bool.and_true,
      decide_eq_true_eq]
    simpa using h
  | succ fuel ih =>
    intro l h
    by_cases hle : l.length ≤ maxChunkSize
    · refine ⟨?_, ?_, ?_⟩ <;> simp [chunkFramesFuel, hle]
    · have hdrop : (l.drop maxChunkSize).length ≤ fuel + maxChunkSize := by
        simp only [List.length_drop, maxChunkSize]
        simp only [maxChunkSize] at h hle
        omega
      obtain ⟨h1, h2, h3⟩ := ih (l.drop maxChunkSize) hdrop
      refine ⟨?_, ?_, ?_⟩
      · simp only [chunkFramesFuel, if_neg hle, List.all_cons, h1, Bool.and_true,
          decide_eq_true_eq, List.length_take]
        exact Nat.min_le_left _ _
      · simp only [chunkFramesFuel, if_neg hle, List.flatten_cons]
        rw [h2]
        exact List.take_append_drop maxChunkSize l
      · simp [chunkFramesFuel, if_neg hle]

/-- C1 counterexample: for the line with a tab between the first token and
the rest, the claim's whitespace-delimited tokenisation yields the token
`reboot`, which is deny-listed, so the claim says the line is blocked; but
`isCommandBlocked` splits on the space character only, sees the token
`reboot\tnow`, and allows the line. -/
theorem C1_counterexample :
    specBlockedClaim "reboot\tnow" = true ∧ isCommandBlocked "reboot\tnow" = false :=
  ⟨rfl, rfl⟩

/-- C1 (amended): CommandGuard blocks a line iff the first space-delimited
token of the trimmed line (split on the space character only — other
whitespace such as a tab does not delimit the token), compared
case-insensitively, exactly matches a deny-list entry or starts with a
deny-list name followed by a space; in particular `reboot` and `reboot now`
are blocked and `rebootable-script.sh` is allowed. -/
theorem C1_guard_amended :
    (∀ line : String, isCommandBlocked line = specBlockedAmended line) ∧
    isCommandBlocked "reboot" = true ∧
    isCommandBlocked "reboot now" = true ∧
    isCommandBlocked "rebootable-script.sh" = false := by
  refine ⟨?_, rfl, rfl, rfl⟩
  intro line
  simp only [isCommandBlocked, specBlockedAmended]
  exact (any_or_split BLOCKEDL _ _).symm

/-- C2 (code bug): with the buffered line `reboot` and the terminator frame
`'\r'`, the handler writes the human-readable warning — which begins and
ends with CR-LF — to the sandbox exec stream (`stream.write`, the shell's
stdin, where its leading CR-LF completes the pending blocked line), and
sends nothing on the websocket, although the claim requires the warning to
go to the websocket client and no completed command to reach the shell. -/
theorem C2_blocked_warning_misrouted :
    (handleMessage ⟨"reboot", ""⟩ "\r").streamWrites = [blockedWarning] ∧
    (handleMessage ⟨"reboot", ""⟩ "\r").wsSends = [] ∧
    blockedWarning = "\r\nThis command is blocked for security reasons\r\n" :=
  ⟨rfl, rfl, rfl⟩

/-- C3 counterexample: the server3 variant grants the administrative
capability SYS_ADMIN and disables privilege-escalation confinement
(`no-new-privileges:false`), and the server.js variant grants the raw
network capability NET_ADMIN — refuting the claim that no session creation
grants such capabilities or disables the confinement. -/
theorem C3_counterexample :
    "SYS_ADMIN" ∈ server3HostConfig.CapAdd ∧
    "no-new-privileges:false" ∈ server3HostConfig.SecurityOpt ∧
    "NET_ADMIN" ∈ serverHostConfig.CapAdd := by
  refine ⟨?_, ?_, ?_⟩ <;> decide

/-- C3 (amended): every session creation drops all capabilities and adds
back a fixed list, but the list is not minimal: server3.js adds back
SYS_ADMIN (besides six shell-oriented capabilities) and sets
`no-new-privileges:false` with seccomp unconfined, while server.js adds
back NET_ADMIN with `no-new-privileges` enabled. -/
theorem C3_capability_profiles :
    server3HostConfig.CapDrop = ["ALL"] ∧
    serverHostConfig.CapDrop = ["ALL"] ∧
    server3HostConfig.CapAdd = ["AUDIT_WRITE", "CHOWN", "DAC_OVERRIDE", "SETGID",
      "SETUID", "NET_BIND_SERVICE", "SYS_ADMIN"] ∧
    server3HostConfig.SecurityOpt = ["no-new-privileges:false", "seccomp=unconfined"] ∧
    serverHostConfig.CapAdd = ["NET_ADMIN"] ∧
    serverHostConfig.SecurityOpt = ["no-new-privileges"] :=
  ⟨rfl, rfl, rfl, rfl, rfl, rfl⟩

/-- C4: after `cleanupSession` the registry holds no entry for the id,
whatever the teardown oracle does; one reaper sweep removes every stale
entry, and the swept registry is identical whether teardowns fail or all
succeed — a failing teardown neither keeps the entry nor aborts the sweep
of the remaining sessions. -/
theorem C4_cleanup_fail_open (fails : String → Bool) (reg : Registry) (id : String)
    (now : Nat) (rec : SessionRec) (hmem : (id, rec) ∈ reg)
    (hstale : now - rec.lastActivity > idleThresholdMs) :
    lookupReg (cleanupSession fails reg id).1 id = none ∧
    lookupReg (reaperSweep fails now reg) id = none ∧
    reaperSweep fails now reg = reaperSweep (fun _ => false) now reg :=
  ⟨cleanup_lookup_none fails reg id,
   foldl_sweep_mem_stale fails now id rec hstale reg reg hmem,
   foldl_sweep_indep fails (fun _ => false) now reg reg⟩

theorem C4_witness :
    lookupReg (cleanupSession (fun _ => true) [("s1", ⟨0, (80, 24), none⟩)] "s1").1 "s1"
      = none ∧
    lookupReg (reaperSweep (fun _ => true) 1800001 [("s1", ⟨0, (80, 24), none⟩)]) "s1"
      = none ∧
    reaperSweep (fun _ => true) 1800001 [("s1", ⟨0, (80, 24), none⟩)]
      = reaperSweep (fun _ => false) 1800001 [("s1", ⟨0, (80, 24), none⟩)] :=
  C4_cleanup_fail_open (fun _ => true) [("s1", ⟨0, (80, 24), none⟩)] "s1" 1800001
    ⟨0, (80, 24), none⟩ (List.mem_singleton.mpr rfl) (by decide)

/-- C5 counterexample: in the server.js variant, deleting session `s1` twice
returns 404 `Session not found` on the second call — terminate is not
idempotent there. -/
theorem C5_counterexample :
    (deleteSessionV1 (fun _ => false)
        (deleteSessionV1 (fun _ => false) [("s1", ⟨0, (80, 24), none⟩)] "s1").1
        "s1").2
      = HttpRes.notFound "Session not found" := by
  rfl

/-- C5 (amended): in server3.js terminate is idempotent — both the first and
a repeated call return success and no registry entry remains; in server.js a
repeated call on an already-terminated id returns NotFound, though after
either call no registry entry for the id remains in both variants. -/
theorem C5_terminate_amended (fails : String → Bool) (reg : Registry) (id : String) :
    (deleteSession3 fails reg id).2 = HttpRes.ok "Session terminated successfully" ∧
    (deleteSession3 fails (deleteSession3 fails reg id).1 id).2
      = HttpRes.ok "Session terminated successfully" ∧
    lookupReg (deleteSession3 fails reg id).1 id = none ∧
    lookupReg (deleteSessionV1 fails reg id).1 id = none ∧
    (deleteSessionV1 fails (deleteSessionV1 fails reg id).1 id).2
      = HttpRes.notFound "Session not found" := by
  have h1 : lookupReg (deleteSessionV1 fails reg id).1 id = none := by
    unfold deleteSessionV1
    cases h : lookupReg reg id with
    | none => simp [h]
    | some s => simpa [h] using cleanup_lookup_none fails reg id
  have h2 : ∀ reg' : Registry, lookupReg reg' id = none →
      (deleteSessionV1 fails reg' id).2 = HttpRes.notFound "Session not found" := by
    intro reg' h
    unfold deleteSessionV1
    rw [h]
    rfl
  exact ⟨rfl, rfl, cleanup_lookup_none fails reg id, h1, h2 _ h1⟩

theorem chunkFrames_ge_two (l : List Nat) (h : maxChunkSize < l.length) :
    2 ≤ (chunkFrames l).length := by
  unfold chunkFrames
  obtain ⟨n, hn⟩ : ∃ n, l.length = n + 1 := ⟨l.length - 1, by omega⟩
  rw [hn]
  have hle : ¬ l.length ≤ maxChunkSize := by omega
  simp only [chunkFramesFuel, if_neg hle, List.length_cons]
  have h3 := (chunkFramesFuel_spec n (l.drop maxChunkSize) (by
    simp only [List.length_drop, maxChunkSize]
    omega)).2.2
  omega

/-- C6: every output chunk the exec stream produces is delivered to the
websocket as one or more frames of at most 1024 bytes each, emitted in
order, whose concatenation is the original chunk; a chunk longer than 1024
bytes (such as a 5000-byte burst) is split into at least two such frames. -/
theorem C6_chunking :
    (∀ chunk : List Nat,
      ((chunkFrames chunk).all fun frame => decide (frame.length ≤ 1024)) = true ∧
      (chunkFrames chunk).flatten = chunk ∧
      0 < (chunkFrames chunk).length) ∧
    maxChunkSize = 1024 ∧
    2 ≤ (chunkFrames (List.replicate 5000 0)).length := by
  refine ⟨?_, rfl, chunkFrames_ge_two _ (by norm_num [maxChunkSize])⟩
  intro chunk
  exact chunkFramesFuel_spec chunk.length chunk (Nat.le_add_right _ _)

/-- C7 counterexample: the frame `reboot\r` contains a carriage return, yet
the handler treats it as ordinary input — the whole frame is forwarded to
the exec stream and the inspection buffer becomes `reboot\r` instead of
being reset, because the terminator branch fires only when the frame is
exactly `'\r'` or `'\n'`. -/
theorem C7_counterexample :
    (handleMessage ⟨"", ""⟩ "reboot\r").newState.commandBuffer = "reboot\r" ∧
    (handleMessage ⟨"", ""⟩ "reboot\r").streamWrites = ["reboot\r"] :=
  ⟨rfl, rfl⟩

/-- C7 (amended): for every inbound frame that is exactly a carriage return
or exactly a newline, the deny-list check is performed on the buffered line
at that point — when the trimmed buffer is nonempty and deny-listed, the
warning (and not the frame) is written — and the inspection buffer is reset
to empty after the terminator is processed. -/
theorem C7_terminator_amended (st : WsState) (data : String)
    (h : data = "\r" ∨ data = "\n") :
    (handleMessage st data).newState.commandBuffer = "" ∧
    (jsTrimS st.commandBuffer ≠ "" → isCommandBlocked (jsTrimS st.commandBuffer) = true →
      (handleMessage st data).streamWrites = [blockedWarning] ∧
      (handleMessage st data).wsSends = []) := by
  have hcond : (data == "\r" || data == "\n") = true := by
    rcases h with h | h <;> simp [h]
  constructor
  · unfold handleMessage
    rw [if_pos hcond]
    split
    · rfl
    · split <;> rfl
  · intro hne hblk
    have h1 : (jsTrimS st.commandBuffer != "") = true := bne_iff_ne.mpr hne
    unfold handleMessage
    rw [if_pos hcond, if_pos (by rw [h1, hblk]; rfl)]
    exact ⟨rfl, rfl⟩

theorem C7_witness :
    (handleMessage ⟨"reboot", ""⟩ "\r").newState.commandBuffer = "" ∧
    (handleMessage ⟨"reboot", ""⟩ "\r").streamWrites = [blockedWarning] ∧
    (handleMessage ⟨"reboot", ""⟩ "\r").wsSends = [] := by
  have h := C7_terminator_amended ⟨"reboot", ""⟩ "\r" (Or.inl rfl)
  exact ⟨h.1, (h.2 (by decide) (by rfl)).1, (h.2 (by decide) (by rfl)).2⟩

/-- C8 counterexample: the status route (present only in server.js) responds
with the keys sessionId, active and lastActivity — `dimensions` is not among
them, so no status query reports the dimensions set by a resize. -/
theorem C8_counterexample :
    "dimensions" ∉ statusResponseFields ∧
    (getSessionStatus [("s1", ⟨5, (80, 24), some 0⟩)] "s1").2
      = some ⟨"s1", true, 5⟩ :=
  ⟨by decide, rfl⟩

/-- C8 (amended): resize on an unknown id is NotFound; on a session without
an exec channel it is a no-op success with no runtime resize call; on a
session with a channel it makes exactly one runtime resize call carrying
`h = rows, w = cols` and updates the session's dimensions to the requested
values — but the status route (which exists only in server.js) reports
sessionId, active and lastActivity, not dimensions. -/
theorem C8_resize_amended (reg : Registry) (id : String) (cols rows : Nat) :
    (lookupReg reg id = none →
      resizeSession reg id cols rows false
        = (reg, HttpRes.notFound "Session not found", [])) ∧
    (∀ s : SessionRec, lookupReg reg id = some s → s.channel = none →
      resizeSession reg id cols rows false
        = (reg, HttpRes.ok "Terminal resized", [])) ∧
    (∀ s : SessionRec, lookupReg reg id = some s → s.channel ≠ none →
      (resizeSession reg id cols rows false).2.2 = [⟨rows, cols⟩] ∧
      (resizeSession reg id cols rows false).2.1 = HttpRes.ok "Terminal resized" ∧
      lookupReg (resizeSession reg id cols rows false).1 id
        = some { s with dimensions := (cols, rows) }) := by
  refine ⟨?_, ?_, ?_⟩
  · intro h
    unfold resizeSession
    rw [h]
  · intro s hs hch
    unfold resizeSession
    rw [hs]
    simp [hch]
  · intro s hs hch
    have hsome : s.channel.isSome = true := Option.isSome_iff_ne_none.mpr hch
    have hres : resizeSession reg id cols rows false
        = (updateDims reg id cols rows, HttpRes.ok "Terminal resized", [⟨rows, cols⟩]) := by
      unfold resizeSession
      rw [hs]
      simp [hsome]
    rw [hres]
    refine ⟨rfl, rfl, ?_⟩
    rw [lookup_updateDims id cols rows reg, hs]
    rfl

theorem C8_witness :
    (resizeSession [("s1", ⟨5, (80, 24), some 0⟩)] "s1" 120 40 false).2.2
      = [⟨40, 120⟩] ∧
    (resizeSession [("s1", ⟨5, (80, 24), some 0⟩)] "s1" 120 40 false).2.1
      = HttpRes.ok "Terminal resized" ∧
    lookupReg (resizeSession [("s1", ⟨5, (80, 24), some 0⟩)] "s1" 120 40 false).1 "s1"
      = some ⟨5, (120, 40), some 0⟩ := by
  have h := (C8_resize_amended [("s1", ⟨5, (80, 24), some 0⟩)] "s1" 120 40).2.2
    ⟨5, (80, 24), some 0⟩ rfl (by decide)
  exact ⟨h.1, h.2.1, h.2.2⟩

/-- C9 counterexample: with session `s1` registered, two websocket
connections for `s1` in a row leave two live bridges for `s1` — the second
connection is neither rejected nor preceded by teardown of the first
bridge's process channel. -/
theorem C9_counterexample :
    ((wsConnect (wsConnect ⟨[("s1", ⟨0, (80, 24), none⟩)], [], 0⟩ 1 "s1") 2 "s1").bridges.filter
        (fun b => b.sessionId == "s1")).length = 2 :=
  rfl

/-- C9 (amended): a new transport connection for a session that already has
an active bridge is accepted unconditionally — a fresh process channel is
opened and appended as a new bridge, overwriting the session's channel
reference, while every previously live bridge stays untouched (it is only
retired when its own websocket closes), so several bridges can be live for
one session at once. -/
theorem C9_reconnect_amended (st : SrvState) (wsId : Nat) (sid : String)
    (s : SessionRec) (h : lookupReg st.reg sid = some s) :
    (wsConnect st wsId sid).bridges = st.bridges ++ [⟨wsId, st.nextStream, sid⟩] := by
  unfold wsConnect
  rw [h]

theorem C9_witness :
    (wsConnect ⟨[("s1", ⟨0, (80, 24), none⟩)], [], 0⟩ 1 "s1").bridges
      = [] ++ [⟨1, 0, "s1"⟩] :=
  C9_reconnect_amended ⟨[("s1", ⟨0, (80, 24), none⟩)], [], 0⟩ 1 "s1"
    ⟨0, (80, 24), none⟩ rfl

/-- C10: in server.js a timer armed at creation time `t` fires at
`t + 1800000` ms (30 minutes), and when it fires — after any sequence of
activity-timestamp updates whatsoever — the session's registry entry is
gone: continuous client activity does not extend the session past 30
minutes from creation. -/
theorem C10_creation_timeout (fails : String → Bool) (reg : Registry) (id : String)
    (t : Nat) (acts : List (String × Nat)) :
    (armSessionTimer id t).fireAt = t + 1800000 ∧
    lookupReg
      (applyEvent fails
        ((acts.map fun a => SrvEvent.activity a.1 a.2).foldl (applyEvent fails) reg)
        (SrvEvent.timerFire id))
      id = none :=
  ⟨rfl, timerFire_lookup_none fails _ id⟩
